import Mathlib

/-!
Verification of the V2 fluent consumer facade of pact-go
(`consumer/http_v2.go`) against its natural-language specification.

The facade itself (`http_v2.go`) is embedded faithfully: every handle type
(`UnconfiguredV2Interaction`, `V2InteractionWithRequest`, ...) becomes a Lean
structure carrying the interaction under construction and the owning provider,
and every method becomes a Lean function on that structure. Components the
facade calls but whose source is outside the analysed tree (the mockserver
backed `Interaction`, the `matchers` package, `validateMatchers`,
`utils.IsJSONFormattedObject`, the provider lifecycle `ExecuteTest`) are
modelled from the specification; each such definition says so in its doc
comment. `utils.IsJSONFormattedObject` is kept abstract: the functions that
consult it take the predicate as a parameter, and theorems quantify over it.

Go pointer mutation is rendered as explicit state passing, and Go panics
(used by `JSONBody` / `MatchV2` for construction errors) as `Except`.
-/

set_option autoImplicit false

namespace PactGo

/-- Pact specification versions used by this facade (`models.V2`, `models.V3`). -/
inductive SpecificationVersion where
  | v2
  | v3
deriving DecidableEq, Repr

/-- Holds (`versionAtLeast v w`) when version `v` is at least `w` (V2 < V3). -/
def versionAtLeast : SpecificationVersion → SpecificationVersion → Bool
  | _, .v2 => true
  | .v3, .v3 => true
  | .v2, .v3 => false

/-- Modelled from the spec: the matcher value model (the `matchers` package is
outside the analysed tree). One case per rule kind used by the V2/V3 facades;
`string` is the exact-string matcher `matchers.String`. Every constructor is a
total function of its parameters: no specification-version check happens at
rule-construction time. -/
inductive MatcherRule where
  | string (value : String)
  | like (ex : String)
  | regex (ex : String) (pattern : String)
  | integer (ex : Int)
  | includes (substring : String)
  | arrayMinLike (ex : String) (min : Nat)
  | fromProviderState (expression : String) (ex : String)
  | dateTimeGenerated (ex : String) (format : String)
deriving DecidableEq, Repr

/-- Modelled from the spec: the minimum specification version at which a rule
kind is legal — `FromProviderState` and `DateTimeGenerated` require at least
V3, every other kind is legal from V2. -/
def minimumSpecVersion : MatcherRule → SpecificationVersion
  | .fromProviderState _ _ => .v3
  | .dateTimeGenerated _ _ => .v3
  | _ => .v2

/-- A JSON-like body value as passed to `JSONBody`: plain scalars, arrays,
objects, with matcher rules embedded at leaves. -/
inductive BodyNode where
  | null
  | boolean (b : Bool)
  | number (n : Int)
  | str (s : String)
  | arr (items : List BodyNode)
  | obj (fields : List (String × BodyNode))
  | matcher (rule : MatcherRule)

mutual

/-- All matcher rules embedded anywhere in a body value. -/
def bodyRules : BodyNode → List MatcherRule
  | .null => []
  | .boolean _ => []
  | .number _ => []
  | .str _ => []
  | .arr items => bodyRulesList items
  | .obj fields => bodyRulesFields fields
  | .matcher r => [r]

/-- Rules embedded in a list of body values. -/
def bodyRulesList : List BodyNode → List MatcherRule
  | [] => []
  | b :: rest => bodyRules b ++ bodyRulesList rest

/-- Rules embedded in the field list of an object body. -/
def bodyRulesFields : List (String × BodyNode) → List MatcherRule
  | [] => []
  | f :: rest => bodyRules f.2 ++ bodyRulesFields rest

end

/-- A verification mismatch reported by the mock transport. -/
structure Mismatch where
  path : String
  expectedRuleDescription : String
  observedValue : String
deriving DecidableEq, Repr

/-- The errors surfaced by the facade and the mock-provider lifecycle. -/
inductive PactError where
  | invalidInteractionSequence
  | unsupportedForSpecVersion
  | incompatibleType
  | emptyContract
  | emptyNames
  | transportStart
  | testFailure (exerciseError : Option String) (mismatches : List Mismatch)
  | persistenceFailure (message : String)
deriving DecidableEq, Repr

/-- Modelled from the spec: `validateMatchers(version, body)` (defined outside
the analysed tree, called by `JSONBody`) walks the body and fails with
`UnsupportedForSpecVersionError` when some embedded rule requires a higher
specification version than the interaction carries. -/
def validateMatchers (v : SpecificationVersion) (body : BodyNode) : Option PactError :=
  if (bodyRules body).all (fun r => versionAtLeast v (minimumSpecVersion r)) then
    none
  else
    some .unsupportedForSpecVersion

/-- A provider state: name plus parameter mapping (empty for plain string
states, which is all the V2 `Given` accepts). -/
structure ProviderState where
  name : String
  parameters : List (String × String)
deriving DecidableEq, Repr

/-- Modelled from the spec: a typed Go record as passed to `BodyMatch`,
abstracted to the shapes that matter — leaf fields carrying per-field example
metadata (struct tags), nested records, and values with no JSON representation
(channels, functions). -/
inductive GoValue where
  | stringField (fieldExample : String)
  | intField (fieldExample : Int)
  | record (fields : List (String × GoValue))
  | channel
  | function

mutual

/-- Modelled from the spec: whether a Go value is JSON-representable. -/
def jsonRepresentable : GoValue → Bool
  | .stringField _ => true
  | .intField _ => true
  | .record fields => jsonRepresentableFields fields
  | .channel => false
  | .function => false

/-- JSON-representability of a record's field list. -/
def jsonRepresentableFields : List (String × GoValue) → Bool
  | [] => true
  | f :: rest => jsonRepresentable f.2 && jsonRepresentableFields rest

end

mutual

/-- Modelled from the spec: the matcher tree `MatchV2` derives from a typed
record's per-field metadata — each leaf example becomes a type-class matcher. -/
def deriveBody : GoValue → BodyNode
  | .stringField e => .matcher (.like e)
  | .intField e => .matcher (.integer e)
  | .record fields => .obj (deriveBodyFields fields)
  | .channel => .null
  | .function => .null

/-- Matcher derivation over a record's field list. -/
def deriveBodyFields : List (String × GoValue) → List (String × BodyNode)
  | [] => []
  | f :: rest => (f.1, deriveBody f.2) :: deriveBodyFields rest

end

/-- Modelled from the spec: `matchers.MatchV2` (outside the analysed tree)
feeds a typed record through the structural matcher builder, failing with
`IncompatibleTypeError` when the record is not JSON-representable; the Go
panic is rendered as `Except.error`. -/
def MatchV2 (v : GoValue) : Except PactError BodyNode :=
  if jsonRepresentable v then .ok (deriveBody v) else .error .incompatibleType

/-- The primitive mutations applied to the interaction under construction, in
application order. Recording them lets ordering claims be stated as facts
about the event trace. -/
inductive Event where
  | given (state : String)
  | uponReceiving (description : String)
  | withRequest (method : String) (path : MatcherRule)
  | withQuery (query : List (String × List MatcherRule))
  | withRequestHeaders (headers : List (String × List MatcherRule))
  | withJSONRequestBody (body : BodyNode)
  | withBinaryRequestBody (body : String)
  | withRequestMultipartFile (contentType : String) (fileName : String) (mimePartName : String)
  | withRequestBody (contentType : String) (body : String)
  | withStatus (status : Int)
  | withResponseHeaders (headers : List (String × List MatcherRule))
  | withJSONResponseBody (body : BodyNode)
  | withBinaryResponseBody (body : String)
  | withResponseMultipartFile (contentType : String) (fileName : String) (mimePartName : String)
  | withResponseBody (contentType : String) (body : String)
  | withCompleteRequest (method : String) (path : MatcherRule)
  | withCompleteResponse (status : Int)

/-- The interaction under construction. Merges `consumer.Interaction` (which
carries the specification version) with the mockserver-backed native
interaction it wraps; the native interaction's fields and methods are
modelled from the spec's data model (§3), its source being outside the
analysed tree. `events` is the trace of primitive mutations. -/
structure Interaction where
  specificationVersion : SpecificationVersion
  states : List ProviderState
  description : String
  requestMethod : Option String
  requestPath : Option MatcherRule
  requestQuery : List (String × List MatcherRule)
  requestHeaders : List (String × List MatcherRule)
  requestBody : Option BodyNode
  requestRawBody : Option (String × String)
  responseStatus : Option Int
  responseHeaders : List (String × List MatcherRule)
  responseBody : Option BodyNode
  responseRawBody : Option (String × String)
  events : List Event

/-- A fresh interaction at a given specification version, as produced by
`mockserver.NewInteraction("")`: empty description, no states, no request or
response content. -/
def emptyInteraction (v : SpecificationVersion) : Interaction :=
  ⟨v, [], "", none, none, [], [], none, none, none, [], none, none, []⟩

/-- Modelled from the spec: the native interaction's `Given` appends one
provider state; the V2 facade passes a plain string, which carries an empty
parameter mapping. -/
def Interaction.Given (i : Interaction) (state : String) : Interaction :=
  { i with states := i.states ++ [⟨state, []⟩], events := i.events ++ [.given state] }

/-- Modelled from the spec: the native interaction's `UponReceiving` sets the
description. -/
def Interaction.UponReceiving (i : Interaction) (description : String) : Interaction :=
  { i with description := description, events := i.events ++ [.uponReceiving description] }

/-- Modelled from the spec: the native interaction's `WithRequest` sets the
method and the path matcher. -/
def Interaction.WithRequest (i : Interaction) (method : String) (path : MatcherRule) : Interaction :=
  { i with requestMethod := some method, requestPath := some path,
           events := i.events ++ [.withRequest method path] }

/-- Modelled from the spec: `WithQuery` records expected query parameters. -/
def Interaction.WithQuery (i : Interaction) (q : List (String × List MatcherRule)) : Interaction :=
  { i with requestQuery := i.requestQuery ++ q, events := i.events ++ [.withQuery q] }

/-- Modelled from the spec: `WithRequestHeaders` records expected request
headers. -/
def Interaction.WithRequestHeaders (i : Interaction) (hs : List (String × List MatcherRule)) : Interaction :=
  { i with requestHeaders := i.requestHeaders ++ hs, events := i.events ++ [.withRequestHeaders hs] }

/-- Modelled from the spec: `WithJSONRequestBody` sets the request body
matcher tree. -/
def Interaction.WithJSONRequestBody (i : Interaction) (body : BodyNode) : Interaction :=
  { i with requestBody := some body, events := i.events ++ [.withJSONRequestBody body] }

/-- Modelled from the spec: `WithBinaryRequestBody` sets a binary request
body (bytes rendered as a string). -/
def Interaction.WithBinaryRequestBody (i : Interaction) (body : String) : Interaction :=
  { i with requestRawBody := some ("application/octet-stream", body),
           events := i.events ++ [.withBinaryRequestBody body] }

/-- Modelled from the spec: `WithRequestMultipartFile` records a multipart
request body. -/
def Interaction.WithRequestMultipartFile (i : Interaction) (contentType fileName mimePartName : String) : Interaction :=
  { i with events := i.events ++ [.withRequestMultipartFile contentType fileName mimePartName] }

/-- Modelled from the spec: `WithRequestBody` sets a raw request body with an
explicit content type. -/
def Interaction.WithRequestBody (i : Interaction) (contentType : String) (body : String) : Interaction :=
  { i with requestRawBody := some (contentType, body),
           events := i.events ++ [.withRequestBody contentType body] }

/-- Modelled from the spec: `WithStatus` sets the expected response status. -/
def Interaction.WithStatus (i : Interaction) (status : Int) : Interaction :=
  { i with responseStatus := some status, events := i.events ++ [.withStatus status] }

/-- Modelled from the spec: `WithResponseHeaders` records expected response
headers. -/
def Interaction.WithResponseHeaders (i : Interaction) (hs : List (String × List MatcherRule)) : Interaction :=
  { i with responseHeaders := i.responseHeaders ++ hs, events := i.events ++ [.withResponseHeaders hs] }

/-- Modelled from the spec: `WithJSONResponseBody` sets the response body
matcher tree. -/
def Interaction.WithJSONResponseBody (i : Interaction) (body : BodyNode) : Interaction :=
  { i with responseBody := some body, events := i.events ++ [.withJSONResponseBody body] }

/-- Modelled from the spec: `WithBinaryResponseBody` sets a binary response
body. -/
def Interaction.WithBinaryResponseBody (i : Interaction) (body : String) : Interaction :=
  { i with responseRawBody := some ("application/octet-stream", body),
           events := i.events ++ [.withBinaryResponseBody body] }

/-- Modelled from the spec: `WithResponseMultipartFile` records a multipart
response body. -/
def Interaction.WithResponseMultipartFile (i : Interaction) (contentType fileName mimePartName : String) : Interaction :=
  { i with events := i.events ++ [.withResponseMultipartFile contentType fileName mimePartName] }

/-- Modelled from the spec: `WithResponseBody` sets a raw response body with
an explicit content type. -/
def Interaction.WithResponseBody (i : Interaction) (contentType : String) (body : String) : Interaction :=
  { i with responseRawBody := some (contentType, body),
           events := i.events ++ [.withResponseBody contentType body] }

/-- The mock server configuration handed to the exercise function
(`MockServerConfig`), reduced to the fields the model observes. -/
structure MockServerConfig where
  host : String
  port : Nat
  tls : Bool
deriving DecidableEq, Repr

/-- Configuration of the mock HTTP provider (`MockHTTPProviderConfig`). -/
structure MockHTTPProviderConfig where
  consumer : String
  provider : String
  host : String
  port : Nat
  tls : Bool
deriving DecidableEq, Repr

/-- The outcome of the transport's `verify` call (§6). -/
structure VerificationResult where
  matched : Bool
  mismatches : List Mismatch
deriving DecidableEq, Repr

/-- Modelled from the spec: the external mock transport collaborator (§6),
abstracted to the observable outcomes of one run — what `start` returns and
what `verify` reports. -/
structure MockTransport where
  startResult : Except PactError MockServerConfig
  verifyResult : VerificationResult

/-- Modelled from the spec: the external persistence collaborator (§6),
abstracted to the observable outcome of `writeContract` on this aggregate —
`none`, or the persistence error's message. -/
structure Persistence where
  writeResult : Option String

/-- The embedded `httpMockProvider`: configuration, specification version,
and the lifecycle-relevant state (registered interactions, transport,
persistence). -/
structure HttpMockProvider where
  config : MockHTTPProviderConfig
  specificationVersion : SpecificationVersion
  interactions : List Interaction
  transport : MockTransport
  persistence : Persistence

/-- Modelled from the spec: `httpMockProvider.ExecuteTest` drives the §4.5
lifecycle — validate the aggregate non-empty and the consumer/provider names
non-empty, start the transport, invoke the exercise function exactly once,
verify, and on success trigger persistence of the aggregate. One aggregated
error is returned, `none` on full success; a persistence failure after
successful verification does not revert the verified status but is reported
distinctly (§7), so the caller can tell "contract invalid" from "contract
valid but not saved". The caller's exercise error is a Go `error`, modelled
as `Option String`. -/
def HttpMockProvider.ExecuteTest (p : HttpMockProvider)
    (exerciseFn : MockServerConfig → Option String) : Option PactError :=
  if p.interactions.isEmpty then some .emptyContract
  else if p.config.consumer = "" ∨ p.config.provider = "" then some .emptyNames
  else
    match p.transport.startResult with
    | .error _ => some .transportStart
    | .ok cfg =>
      match exerciseFn cfg, p.transport.verifyResult with
      | none, ⟨true, _⟩ =>
        match p.persistence.writeResult with
        | none => none
        | some msg => some (.persistenceFailure msg)
      | exErr, vr => some (.testFailure exErr vr.mismatches)

/-- Structure `V2HTTPMockProvider` embeds `httpMockProvider` (src line 14). -/
structure V2HTTPMockProvider where
  httpMockProvider : HttpMockProvider

/-- The handle for an interaction before its request is set
(`UnconfiguredV2Interaction`). -/
structure UnconfiguredV2Interaction where
  interaction : Interaction
  provider : V2HTTPMockProvider

/-- The handle returned once the request is set (`V2InteractionWithRequest`);
the only type that exposes `WillRespondWith`. -/
structure V2InteractionWithRequest where
  interaction : Interaction
  provider : V2HTTPMockProvider

/-- The builder handle passed to `V2RequestBuilder` callbacks. -/
structure V2InteractionWithRequestBuilder where
  interaction : Interaction
  provider : V2HTTPMockProvider

/-- The handle returned by `WithCompleteRequest`. -/
structure V2InteractionWithCompleteRequest where
  interaction : Interaction
  provider : V2HTTPMockProvider

/-- The builder handle passed to `V2ResponseBuilder` callbacks. -/
structure V2InteractionWithResponseBuilder where
  interaction : Interaction
  provider : V2HTTPMockProvider

/-- The completed handle (`V2InteractionWithResponse`); the only type that
exposes `ExecuteTest`. -/
structure V2InteractionWithResponse where
  interaction : Interaction
  provider : V2HTTPMockProvider

/-- Method `AddInteraction` (src lines 36-49): creates a fresh native interaction via
`NewInteraction("")` — so the description starts empty — wraps it at
specification version V2 and returns the unconfigured handle. -/
def V2HTTPMockProvider.AddInteraction (p : V2HTTPMockProvider) : UnconfiguredV2Interaction :=
  ⟨emptyInteraction .v2, p⟩

/-- Method `Given` on the unconfigured handle (src lines 57-61): forwards the plain
string state to the native interaction and returns the same handle type. -/
def UnconfiguredV2Interaction.Given (i : UnconfiguredV2Interaction) (state : String) :
    UnconfiguredV2Interaction :=
  { i with interaction := i.interaction.Given state }

/-- Method `UponReceiving` on the unconfigured handle (src lines 77-81): sets the
description and returns the same handle type. -/
def UnconfiguredV2Interaction.UponReceiving (i : UnconfiguredV2Interaction) (description : String) :
    UnconfiguredV2Interaction :=
  { i with interaction := i.interaction.UponReceiving description }

/-- A complete expected request as taken by `WithCompleteRequest`. -/
structure Request where
  method : String
  path : MatcherRule
  query : List (String × List MatcherRule)
  headers : List (String × List MatcherRule)
  body : Option BodyNode

/-- A complete expected response as taken by `WithCompleteResponse`. -/
structure Response where
  status : Int
  headers : List (String × List MatcherRule)
  body : Option BodyNode

/-- Modelled from the spec: `Interaction.WithCompleteRequest` (defined in the
consumer package outside the analysed tree) installs a whole request spec. -/
def Interaction.WithCompleteRequest (i : Interaction) (r : Request) : Interaction :=
  { i with requestMethod := some r.method, requestPath := some r.path,
           requestQuery := r.query, requestHeaders := r.headers, requestBody := r.body,
           events := i.events ++ [.withCompleteRequest r.method r.path] }

/-- Modelled from the spec: `Interaction.WithCompleteResponse` installs a
whole response spec. -/
def Interaction.WithCompleteResponse (i : Interaction) (r : Response) : Interaction :=
  { i with responseStatus := some r.status, responseHeaders := r.headers, responseBody := r.body,
           events := i.events ++ [.withCompleteResponse r.status] }

/-- Method `WithCompleteRequest` on the unconfigured handle (src lines 84-91). -/
def UnconfiguredV2Interaction.WithCompleteRequest (i : UnconfiguredV2Interaction) (request : Request) :
    V2InteractionWithCompleteRequest :=
  ⟨i.interaction.WithCompleteRequest request, i.provider⟩

/-- Method `WithCompleteResponse` (src lines 99-106). -/
def V2InteractionWithCompleteRequest.WithCompleteResponse (i : V2InteractionWithCompleteRequest)
    (response : Response) : V2InteractionWithResponse :=
  ⟨i.interaction.WithCompleteResponse response, i.provider⟩

/-- The warning logged when a string body looks like a JSON formatted object
(text abridged from src). -/
def jsonFormattedObjectWarning : String :=
  "body appears to be a JSON formatted object, no matching will occur"

/-- Method `Query` on the request builder (src lines 131-135). -/
def V2InteractionWithRequestBuilder.Query (i : V2InteractionWithRequestBuilder)
    (key : String) (values : List MatcherRule) : V2InteractionWithRequestBuilder :=
  { i with interaction := i.interaction.WithQuery [(key, values)] }

/-- Method `Header` on the request builder (src lines 138-142). -/
def V2InteractionWithRequestBuilder.Header (i : V2InteractionWithRequestBuilder)
    (key : String) (values : List MatcherRule) : V2InteractionWithRequestBuilder :=
  { i with interaction := i.interaction.WithRequestHeaders [(key, values)] }

/-- Method `Headers` on the request builder (src lines 145-149). -/
def V2InteractionWithRequestBuilder.Headers (i : V2InteractionWithRequestBuilder)
    (hs : List (String × List MatcherRule)) : V2InteractionWithRequestBuilder :=
  { i with interaction := i.interaction.WithRequestHeaders hs }

/-- Method `JSONBody` on the request builder (src lines 152-172): validate the
body's matchers against the interaction's specification version — a failure
is a Go panic, rendered as `Except.error` — then warn (only) when a plain
string body looks like a JSON formatted object, then register the body.
The first component is the list of warnings logged. -/
def V2InteractionWithRequestBuilder.JSONBody (isJSONFormattedObject : String → Bool)
    (i : V2InteractionWithRequestBuilder) (body : BodyNode) :
    List String × Except PactError V2InteractionWithRequestBuilder :=
  match validateMatchers i.interaction.specificationVersion body with
  | some e => ([], .error e)
  | none =>
    let warnings :=
      match body with
      | .str s => if isJSONFormattedObject s then [jsonFormattedObjectWarning] else []
      | _ => []
    (warnings, .ok { i with interaction := i.interaction.WithJSONRequestBody body })

/-- Method `BinaryBody` on the request builder (src lines 175-179). -/
def V2InteractionWithRequestBuilder.BinaryBody (i : V2InteractionWithRequestBuilder)
    (body : String) : V2InteractionWithRequestBuilder :=
  { i with interaction := i.interaction.WithBinaryRequestBody body }

/-- Method `MultipartBody` on the request builder (src lines 182-186). -/
def V2InteractionWithRequestBuilder.MultipartBody (i : V2InteractionWithRequestBuilder)
    (contentType fileName mimePartName : String) : V2InteractionWithRequestBuilder :=
  { i with interaction := i.interaction.WithRequestMultipartFile contentType fileName mimePartName }

/-- Method `Body` on the request builder (src lines 189-202): warn (only) when the
raw bytes look like a JSON formatted object, then register the body with its
content type. The first component is the list of warnings logged. -/
def V2InteractionWithRequestBuilder.Body (isJSONFormattedObject : String → Bool)
    (i : V2InteractionWithRequestBuilder) (contentType : String) (body : String) :
    List String × V2InteractionWithRequestBuilder :=
  (if isJSONFormattedObject body then [jsonFormattedObjectWarning] else [],
   { i with interaction := i.interaction.WithRequestBody contentType body })

/-- Method `BodyMatch` on the request builder (src lines 205-209): derive matchers
from the typed record via `MatchV2` and set them as the JSON request body;
the `MatchV2` panic on a non-JSON-representable record is rendered as
`Except.error`. -/
def V2InteractionWithRequestBuilder.BodyMatch (i : V2InteractionWithRequestBuilder)
    (body : GoValue) : Except PactError V2InteractionWithRequestBuilder :=
  match MatchV2 body with
  | .error e => .error e
  | .ok b => .ok { i with interaction := i.interaction.WithJSONRequestBody b }

/-- Method `Header` on the response builder (src lines 242-246). -/
def V2InteractionWithResponseBuilder.Header (i : V2InteractionWithResponseBuilder)
    (key : String) (values : List MatcherRule) : V2InteractionWithResponseBuilder :=
  { i with interaction := i.interaction.WithResponseHeaders [(key, values)] }

/-- Method `Headers` on the response builder (src lines 249-253). -/
def V2InteractionWithResponseBuilder.Headers (i : V2InteractionWithResponseBuilder)
    (hs : List (String × List MatcherRule)) : V2InteractionWithResponseBuilder :=
  { i with interaction := i.interaction.WithResponseHeaders hs }

/-- Method `JSONBody` on the response builder (src lines 256-275): same structure as
the request-side `JSONBody`. -/
def V2InteractionWithResponseBuilder.JSONBody (isJSONFormattedObject : String → Bool)
    (i : V2InteractionWithResponseBuilder) (body : BodyNode) :
    List String × Except PactError V2InteractionWithResponseBuilder :=
  match validateMatchers i.interaction.specificationVersion body with
  | some e => ([], .error e)
  | none =>
    let warnings :=
      match body with
      | .str s => if isJSONFormattedObject s then [jsonFormattedObjectWarning] else []
      | _ => []
    (warnings, .ok { i with interaction := i.interaction.WithJSONResponseBody body })

/-- Method `BinaryBody` on the response builder (src lines 278-282). -/
def V2InteractionWithResponseBuilder.BinaryBody (i : V2InteractionWithResponseBuilder)
    (body : String) : V2InteractionWithResponseBuilder :=
  { i with interaction := i.interaction.WithBinaryResponseBody body }

/-- Method `MultipartBody` on the response builder (src lines 285-289). -/
def V2InteractionWithResponseBuilder.MultipartBody (i : V2InteractionWithResponseBuilder)
    (contentType fileName mimePartName : String) : V2InteractionWithResponseBuilder :=
  { i with interaction := i.interaction.WithResponseMultipartFile contentType fileName mimePartName }

/-- Method `Body` on the response builder (src lines 292-296): registers the raw
body; the response side performs no JSON-formatted-object check. -/
def V2InteractionWithResponseBuilder.Body (i : V2InteractionWithResponseBuilder)
    (contentType : String) (body : String) : V2InteractionWithResponseBuilder :=
  { i with interaction := i.interaction.WithResponseBody contentType body }

/-- Method `BodyMatch` on the response builder (src lines 299-303). -/
def V2InteractionWithResponseBuilder.BodyMatch (i : V2InteractionWithResponseBuilder)
    (body : GoValue) : Except PactError V2InteractionWithResponseBuilder :=
  match MatchV2 body with
  | .error e => .error e
  | .ok b => .ok { i with interaction := i.interaction.WithJSONResponseBody b }

/-- One method call a `V2RequestBuilder` callback can make on the request
builder handle: Go builder callbacks are deep-embedded as the sequence of
builder method calls they perform. -/
inductive V2RequestOp where
  | query (key : String) (values : List MatcherRule)
  | header (key : String) (values : List MatcherRule)
  | headers (hs : List (String × List MatcherRule))
  | jsonBody (body : BodyNode)
  | binaryBody (body : String)
  | multipartBody (contentType : String) (fileName : String) (mimePartName : String)
  | body (contentType : String) (raw : String)
  | bodyMatch (v : GoValue)

/-- One method call a `V2ResponseBuilder` callback can make on the response
builder handle. -/
inductive V2ResponseOp where
  | header (key : String) (values : List MatcherRule)
  | headers (hs : List (String × List MatcherRule))
  | jsonBody (body : BodyNode)
  | binaryBody (body : String)
  | multipartBody (contentType : String) (fileName : String) (mimePartName : String)
  | body (contentType : String) (raw : String)
  | bodyMatch (v : GoValue)

/-- A `V2RequestBuilder` callback, as the builder method calls it makes. -/
def V2RequestBuilderProg : Type := List V2RequestOp

/-- A `V2ResponseBuilder` callback, as the builder method calls it makes. -/
def V2ResponseBuilderProg : Type := List V2ResponseOp

/-- Apply one request-builder method call; a Go panic inside the callback
(`JSONBody`/`BodyMatch` validation) aborts as `Except.error`. Warnings are
dropped here; that they carry no effect is proved separately. -/
def applyRequestOp (isJSONFormattedObject : String → Bool)
    (b : V2InteractionWithRequestBuilder) :
    V2RequestOp → Except PactError V2InteractionWithRequestBuilder
  | .query k vs => .ok (b.Query k vs)
  | .header k vs => .ok (b.Header k vs)
  | .headers hs => .ok (b.Headers hs)
  | .jsonBody body => (b.JSONBody isJSONFormattedObject body).2
  | .binaryBody body => .ok (b.BinaryBody body)
  | .multipartBody ct f m => .ok (b.MultipartBody ct f m)
  | .body ct raw => .ok (b.Body isJSONFormattedObject ct raw).2
  | .bodyMatch v => b.BodyMatch v

/-- Run the calls of one request-builder callback in order. -/
def runRequestOps (p : String → Bool) :
    List V2RequestOp → V2InteractionWithRequestBuilder →
    Except PactError V2InteractionWithRequestBuilder
  | [], b => .ok b
  | op :: rest, b =>
    match applyRequestOp p b op with
    | .error e => .error e
    | .ok b2 => runRequestOps p rest b2

/-- Run the supplied request-builder callbacks in order; in Go each callback
receives a fresh `V2InteractionWithRequestBuilder` struct wrapping the same
underlying interaction pointer, which state passing renders as threading one
builder value through. -/
def runRequestBuilders (p : String → Bool) :
    List V2RequestBuilderProg → V2InteractionWithRequestBuilder →
    Except PactError V2InteractionWithRequestBuilder
  | [], b => .ok b
  | prog :: rest, b =>
    match runRequestOps p prog b with
    | .error e => .error e
    | .ok b2 => runRequestBuilders p rest b2

/-- Apply one response-builder method call. -/
def applyResponseOp (isJSONFormattedObject : String → Bool)
    (b : V2InteractionWithResponseBuilder) :
    V2ResponseOp → Except PactError V2InteractionWithResponseBuilder
  | .header k vs => .ok (b.Header k vs)
  | .headers hs => .ok (b.Headers hs)
  | .jsonBody body => (b.JSONBody isJSONFormattedObject body).2
  | .binaryBody body => .ok (b.BinaryBody body)
  | .multipartBody ct f m => .ok (b.MultipartBody ct f m)
  | .body ct raw => .ok (b.Body ct raw)
  | .bodyMatch v => b.BodyMatch v

/-- Run the calls of one response-builder callback in order. -/
def runResponseOps (p : String → Bool) :
    List V2ResponseOp → V2InteractionWithResponseBuilder →
    Except PactError V2InteractionWithResponseBuilder
  | [], b => .ok b
  | op :: rest, b =>
    match applyResponseOp p b op with
    | .error e => .error e
    | .ok b2 => runResponseOps p rest b2

/-- Run the supplied response-builder callbacks in order. -/
def runResponseBuilders (p : String → Bool) :
    List V2ResponseBuilderProg → V2InteractionWithResponseBuilder →
    Except PactError V2InteractionWithResponseBuilder
  | [], b => .ok b
  | prog :: rest, b =>
    match runResponseOps p prog b with
    | .error e => .error e
    | .ok b2 => runResponseBuilders p rest b2

/-- Method `WithRequestPathMatcher` (src lines 114-128): set the method and the path
matcher on the interaction, run each supplied builder callback in order over
the same underlying interaction, and return the request handle. -/
def UnconfiguredV2Interaction.WithRequestPathMatcher (p : String → Bool)
    (i : UnconfiguredV2Interaction) (method : String) (path : MatcherRule)
    (builders : List V2RequestBuilderProg) : Except PactError V2InteractionWithRequest :=
  match runRequestBuilders p builders ⟨i.interaction.WithRequest method path, i.provider⟩ with
  | .error e => .error e
  | .ok b => .ok ⟨b.interaction, i.provider⟩

/-- Method `WithRequest` (src lines 109-111): delegates to `WithRequestPathMatcher`
with the exact-string path matcher `matchers.String(path)`. -/
def UnconfiguredV2Interaction.WithRequest (p : String → Bool)
    (i : UnconfiguredV2Interaction) (method : String) (path : String)
    (builders : List V2RequestBuilderProg) : Except PactError V2InteractionWithRequest :=
  i.WithRequestPathMatcher p method (.string path) builders

/-- Method `WillRespondWith` (src lines 212-227): set the expected status on the
interaction, then run each supplied response-builder callback in order over
the same underlying interaction, and return the completed handle. -/
def V2InteractionWithRequest.WillRespondWith (p : String → Bool)
    (i : V2InteractionWithRequest) (status : Int)
    (builders : List V2ResponseBuilderProg) : Except PactError V2InteractionWithResponse :=
  match runResponseBuilders p builders ⟨i.interaction.WithStatus status, i.provider⟩ with
  | .error e => .error e
  | .ok b => .ok ⟨b.interaction, i.provider⟩

/-- Method `ExecuteTest` on the completed handle (src lines 306-308): delegates to
the owning provider's `ExecuteTest` with the same exercise function. The
`*testing.T` argument carries no data the model observes and is dropped. -/
def V2InteractionWithResponse.ExecuteTest (m : V2InteractionWithResponse)
    (exerciseFn : MockServerConfig → Option String) : Option PactError :=
  m.provider.httpMockProvider.ExecuteTest exerciseFn

/-- The single primitive event one response-builder call appends when it
succeeds. -/
def responseOpEvent : V2ResponseOp → Event
  | .header k vs => .withResponseHeaders [(k, vs)]
  | .headers hs => .withResponseHeaders hs
  | .jsonBody b => .withJSONResponseBody b
  | .binaryBody s => .withBinaryResponseBody s
  | .multipartBody ct f m => .withResponseMultipartFile ct f m
  | .body ct raw => .withResponseBody ct raw
  | .bodyMatch v => .withJSONResponseBody (deriveBody v)

/-- The handle types of the V2 facade, one state per Go handle struct. -/
inductive BuilderState where
  | unconfigured
  | withRequest
  | withCompleteRequest
  | withResponse
deriving DecidableEq, Repr

/-- The facade's builder step names. -/
inductive BuilderStep where
  | given
  | uponReceiving
  | withRequest
  | withRequestPathMatcher
  | withCompleteRequest
  | withCompleteResponse
  | willRespondWith
deriving DecidableEq, Repr

/-- A facade builder step together with its arguments. -/
inductive StepArgs where
  | given (state : String)
  | uponReceiving (description : String)
  | withRequest (method : String) (path : String) (builders : List V2RequestBuilderProg)
  | withRequestPathMatcher (method : String) (path : MatcherRule)
      (builders : List V2RequestBuilderProg)
  | withCompleteRequest (request : Request)
  | withCompleteResponse (response : Response)
  | willRespondWith (status : Int) (builders : List V2ResponseBuilderProg)

/-- The name of a step, without its arguments. -/
def stepName : StepArgs → BuilderStep
  | .given _ => .given
  | .uponReceiving _ => .uponReceiving
  | .withRequest _ _ _ => .withRequest
  | .withRequestPathMatcher _ _ _ => .withRequestPathMatcher
  | .withCompleteRequest _ => .withCompleteRequest
  | .withCompleteResponse _ => .withCompleteResponse
  | .willRespondWith _ _ => .willRespondWith

/-- The receiver handle type each facade method is defined on, transcribed
from the src method signatures. -/
def receiverState : BuilderStep → BuilderState
  | .given => .unconfigured
  | .uponReceiving => .unconfigured
  | .withRequest => .unconfigured
  | .withRequestPathMatcher => .unconfigured
  | .withCompleteRequest => .unconfigured
  | .withCompleteResponse => .withCompleteRequest
  | .willRespondWith => .withRequest

/-- The handle type each facade method returns, transcribed from the src
method signatures. -/
def resultState : BuilderStep → BuilderState
  | .given => .unconfigured
  | .uponReceiving => .unconfigured
  | .withRequest => .withRequest
  | .withRequestPathMatcher => .withRequest
  | .withCompleteRequest => .withCompleteRequest
  | .withCompleteResponse => .withResponse
  | .willRespondWith => .withResponse

/-- The call-time sequence guard the spec prescribes for dynamically typed
targets (§9), equivalent to the Go handle-type discipline: a step invoked on
a handle state other than its receiver type fails with
`InvalidInteractionSequenceError` and yields no new state (the caller's
interaction is untouched); a step invoked on its receiver state runs the
corresponding facade method from src. -/
def guardedStep (p : String → Bool) (prov : V2HTTPMockProvider) :
    BuilderState → Interaction → StepArgs → Except PactError (BuilderState × Interaction)
  | .unconfigured, i, .given s =>
    .ok (.unconfigured, (UnconfiguredV2Interaction.Given ⟨i, prov⟩ s).interaction)
  | .unconfigured, i, .uponReceiving d =>
    .ok (.unconfigured, (UnconfiguredV2Interaction.UponReceiving ⟨i, prov⟩ d).interaction)
  | .unconfigured, i, .withRequest m path bs =>
    match UnconfiguredV2Interaction.WithRequest p ⟨i, prov⟩ m path bs with
    | .error e => .error e
    | .ok r => .ok (.withRequest, r.interaction)
  | .unconfigured, i, .withRequestPathMatcher m path bs =>
    match UnconfiguredV2Interaction.WithRequestPathMatcher p ⟨i, prov⟩ m path bs with
    | .error e => .error e
    | .ok r => .ok (.withRequest, r.interaction)
  | .unconfigured, i, .withCompleteRequest r =>
    .ok (.withCompleteRequest, (UnconfiguredV2Interaction.WithCompleteRequest ⟨i, prov⟩ r).interaction)
  | .withCompleteRequest, i, .withCompleteResponse r =>
    .ok (.withResponse, (V2InteractionWithCompleteRequest.WithCompleteResponse ⟨i, prov⟩ r).interaction)
  | .withRequest, i, .willRespondWith status bs =>
    match V2InteractionWithRequest.WillRespondWith p ⟨i, prov⟩ status bs with
    | .error e => .error e
    | .ok r => .ok (.withResponse, r.interaction)
  | _, _, _ => .error .invalidInteractionSequence

/-- A concrete provider used by witnesses, mirroring the example consumer
test's configuration. -/
def sampleProvider : V2HTTPMockProvider :=
  ⟨⟨⟨"V2Consumer", "V2Provider", "127.0.0.1", 8080, true⟩, .v2,
    [emptyInteraction .v2], ⟨.ok ⟨"127.0.0.1", 8080, true⟩, ⟨true, []⟩⟩, ⟨none⟩⟩⟩

/-- A concrete provider whose persistence collaborator fails, used to witness
the distinct reporting of a persistence failure after a successful run. -/
def failingPersistenceProvider : V2HTTPMockProvider :=
  ⟨⟨⟨"V2Consumer", "V2Provider", "127.0.0.1", 8080, true⟩, .v2,
    [emptyInteraction .v2], ⟨.ok ⟨"127.0.0.1", 8080, true⟩, ⟨true, []⟩⟩,
    ⟨some "contract file not written"⟩⟩⟩

/-- A concrete stand-in for `utils.IsJSONFormattedObject` used by witnesses:
treats no string as a JSON formatted object. -/
def noJSONObject : String → Bool := fun _ => false

/-- A concrete request builder handle used by witnesses. -/
def sampleRequestBuilder : V2InteractionWithRequestBuilder :=
  ⟨emptyInteraction .v2, sampleProvider⟩

/-- A concrete response builder handle used by witnesses. -/
def sampleResponseBuilder : V2InteractionWithResponseBuilder :=
  ⟨emptyInteraction .v2, sampleProvider⟩

/-- A body holding a rule that requires specification version V3, mirroring
the example test's `FromProviderState` usage. -/
def sampleV3Body : BodyNode :=
  .obj [("name", .matcher (.fromProviderState "name-expr" "billy"))]

/-- Helper: when some rule embedded in the body requires V3, validation at V2
reports `UnsupportedForSpecVersionError`. -/
theorem validateMatchers_v2_of_v3_rule {body : BodyNode} {r : MatcherRule}
    (hr : r ∈ bodyRules body) (hv : minimumSpecVersion r = .v3) :
    validateMatchers .v2 body = some .unsupportedForSpecVersion := by
  unfold validateMatchers
  have hall : (bodyRules body).all
      (fun rule => versionAtLeast .v2 (minimumSpecVersion rule)) = false := by
    cases hcase : (bodyRules body).all
        (fun rule => versionAtLeast .v2 (minimumSpecVersion rule)) with
    | false => rfl
    | true =>
      have := List.all_eq_true.mp hcase r hr
      rw [hv] at this
      simp [versionAtLeast] at this
  simp [hall]

/-- C9: for every method, plain string path, and builder sequence,
`WithRequest(method, path, builders...)` produces exactly the same result —
interaction state and handle type — as
`WithRequestPathMatcher(method, String(path), builders...)`: the string-path
overload is the matcher overload specialised to the exact-string path
matcher. -/
theorem withRequest_eq_withRequestPathMatcher_string
    (p : String → Bool) (i : UnconfiguredV2Interaction) (method path : String)
    (builders : List V2RequestBuilderProg) :
    i.WithRequest p method path builders
      = i.WithRequestPathMatcher p method (.string path) builders := rfl

/-- C6: for every sequence of `Given` calls made on an unconfigured
interaction, each call appends exactly one provider state, so the
interaction's provider-state list holds exactly those states in call order,
each plain string state carrying an empty parameter mapping. -/
theorem given_appends_one_state_per_call
    (states : List String) (i : UnconfiguredV2Interaction) :
    (states.foldl UnconfiguredV2Interaction.Given i).interaction.states
      = i.interaction.states ++ states.map (fun s => ⟨s, []⟩) := by
  induction states generalizing i with
  | nil => simp
  | cons s rest ih =>
    rw [List.foldl_cons, ih]
    simp [UnconfiguredV2Interaction.Given, Interaction.Given]

/-- C10: for every string body accepted by `JSONBody` (a plain string always
passes matcher validation) or passed to `Body`, the resulting interaction is
identical whether or not the JSON-formatted-object check fires: the check
only contributes the deprecation warning and never alters, rejects, or skips
registration of the body. `p` and `q` are arbitrary outcomes of
`utils.IsJSONFormattedObject`. -/
theorem jsonFormattedObject_check_only_warns
    (p q : String → Bool) (i : V2InteractionWithRequestBuilder)
    (s contentType raw : String) :
    (i.JSONBody p (.str s)).2
        = .ok { i with interaction := i.interaction.WithJSONRequestBody (.str s) }
    ∧ (i.JSONBody p (.str s)).2 = (i.JSONBody q (.str s)).2
    ∧ (i.JSONBody p (.str s)).1
        = (if p s then [jsonFormattedObjectWarning] else [])
    ∧ (i.Body p contentType raw).2 = (i.Body q contentType raw).2
    ∧ (i.Body p contentType raw).2
        = { i with interaction := i.interaction.WithRequestBody contentType raw } := by
  refine ⟨rfl, rfl, ?_, rfl, rfl⟩
  by_cases hp : p s <;>
    simp [V2InteractionWithRequestBuilder.JSONBody, validateMatchers, bodyRules, hp]

/-- C3: for every typed record passed to `BodyMatch` — on the request or the
response builder — the call fails with `IncompatibleTypeError` exactly when
the record is not JSON-representable, surfaced immediately at the point of
the call with the interaction untouched; when the record is
JSON-representable, the matchers derived from the record's per-field
metadata are set as the JSON body. -/
theorem bodyMatch_incompatible_or_derives
    (i : V2InteractionWithRequestBuilder) (j : V2InteractionWithResponseBuilder)
    (v : GoValue) :
    i.BodyMatch v = (if jsonRepresentable v then
        .ok { i with interaction := i.interaction.WithJSONRequestBody (deriveBody v) }
      else .error .incompatibleType)
    ∧ j.BodyMatch v = (if jsonRepresentable v then
        .ok { j with interaction := j.interaction.WithJSONResponseBody (deriveBody v) }
      else .error .incompatibleType) := by
  constructor <;> by_cases hv : jsonRepresentable v <;>
    simp [V2InteractionWithRequestBuilder.BodyMatch,
      V2InteractionWithResponseBuilder.BodyMatch, MatchV2, hv]

/-- C2: for every interaction at specification version V2, calling `JSONBody`
— on the request or the response builder — with a body containing a rule
that requires version at least V3 fails immediately at the `JSONBody` call
with `UnsupportedForSpecVersionError`, before any warning is logged and
before any body is registered. The check happens at body-construction time:
the rule itself (hypothesis `hr` merely locates it inside the body) was
constructed by a total, version-unaware constructor. -/
theorem jsonBody_v2_rejects_v3_rule
    (p q : String → Bool) (i : V2InteractionWithRequestBuilder)
    (j : V2InteractionWithResponseBuilder) (body : BodyNode) (r : MatcherRule)
    (hi : i.interaction.specificationVersion = .v2)
    (hj : j.interaction.specificationVersion = .v2)
    (hr : r ∈ bodyRules body) (hv : minimumSpecVersion r = .v3) :
    i.JSONBody p body = ([], .error .unsupportedForSpecVersion)
    ∧ j.JSONBody q body = ([], .error .unsupportedForSpecVersion) := by
  constructor
  · unfold V2InteractionWithRequestBuilder.JSONBody
    rw [hi, validateMatchers_v2_of_v3_rule hr hv]
  · unfold V2InteractionWithResponseBuilder.JSONBody
    rw [hj, validateMatchers_v2_of_v3_rule hr hv]

/-- Witness for C2: the `FromProviderState` body of the example test,
attempted at V2 on concrete request and response builders. -/
theorem jsonBody_v2_rejects_v3_rule_witness :
    sampleRequestBuilder.JSONBody noJSONObject sampleV3Body
        = ([], .error .unsupportedForSpecVersion)
    ∧ sampleResponseBuilder.JSONBody noJSONObject sampleV3Body
        = ([], .error .unsupportedForSpecVersion) :=
  jsonBody_v2_rejects_v3_rule noJSONObject noJSONObject sampleRequestBuilder
    sampleResponseBuilder sampleV3Body (.fromProviderState "name-expr" "billy")
    rfl rfl
    (by simp [sampleV3Body, bodyRules, bodyRulesFields])
    rfl

/-- C1: calling `WillRespondWith` before `WithRequest` is an invalid step —
under the call-time sequence guard it fails with
`InvalidInteractionSequenceError` and yields no new state, so the aggregate
is not mutated — and, equivalently, from every builder state only the steps
valid in that state are invocable: any step that succeeds was invoked on its
receiver handle type, `willRespondWith`'s receiver is the
`V2InteractionWithRequest` state, and that state is returned exactly by the
`withRequest` and `withRequestPathMatcher` steps. -/
theorem willRespondWith_requires_withRequest :
    (∀ (p : String → Bool) (prov : V2HTTPMockProvider) (status : Int)
        (builders : List V2ResponseBuilderProg) (i : Interaction),
        guardedStep p prov .unconfigured i (.willRespondWith status builders)
          = .error .invalidInteractionSequence)
    ∧ (∀ (p : String → Bool) (prov : V2HTTPMockProvider) (s : BuilderState)
        (i : Interaction) (a : StepArgs) (out : BuilderState × Interaction),
        guardedStep p prov s i a = .ok out → s = receiverState (stepName a))
    ∧ (∀ st : BuilderStep,
        resultState st = receiverState .willRespondWith ↔
          st = .withRequest ∨ st = .withRequestPathMatcher) := by
  refine ⟨fun p prov status builders i => rfl, ?_, fun st => by cases st <;> decide⟩
  intro p prov s i a out h
  cases s <;> cases a <;> first
    | rfl
    | simp [guardedStep] at h

/-- Witness for C1: the erroneous out-of-order call on a concrete
interaction, and the reachability conjunct applied at a concrete successful
step from the request-set state. -/
theorem willRespondWith_requires_withRequest_witness :
    guardedStep noJSONObject sampleProvider .unconfigured (emptyInteraction .v2)
        (.willRespondWith 200 []) = .error .invalidInteractionSequence
    ∧ BuilderState.withRequest
        = receiverState (stepName (.willRespondWith 200 [])) :=
  ⟨willRespondWith_requires_withRequest.1 noJSONObject sampleProvider 200 []
      (emptyInteraction .v2),
   willRespondWith_requires_withRequest.2.1 noJSONObject sampleProvider
      .withRequest (emptyInteraction .v2) (.willRespondWith 200 [])
      (.withResponse, (emptyInteraction .v2).WithStatus 200) rfl⟩

/-- C4 counterexample: the builder sequence `AddInteraction` → `WithRequest`
→ `WillRespondWith` completes without `UponReceiving` ever being called, and
the committed interaction's description is the empty string — refuting the
claim that the sequence cannot complete without a non-empty description. -/
theorem sequence_completes_with_empty_description :
    ((((sampleProvider.AddInteraction).WithRequest noJSONObject "POST" "/foobar" []).bind
        (fun r => r.WillRespondWith noJSONObject 200 [])).toOption.map
        (fun r => r.interaction.description)) = some "" := rfl

/-- C4 amended: an interaction created by `AddInteraction` starts with an
empty description, and the facade lets the builder sequence complete through
`WithRequest` and `WillRespondWith` without `UponReceiving`, in which case
the completed interaction's description is still empty; `UponReceiving` is
the step that sets the description, to whatever string it is given. -/
theorem description_empty_unless_uponReceiving
    (prov : V2HTTPMockProvider) (p : String → Bool) (method path : String)
    (status : Int) :
    (prov.AddInteraction).interaction.description = ""
    ∧ (((prov.AddInteraction.WithRequest p method path []).bind
          (fun r => r.WillRespondWith p status [])).toOption.map
          (fun r => r.interaction.description)) = some ""
    ∧ (∀ (i : UnconfiguredV2Interaction) (d : String),
        (i.UponReceiving d).interaction.description = d) :=
  ⟨rfl, rfl, fun _ _ => rfl⟩

/-- C5 counterexample: after `UponReceiving` the handle is still
`UnconfiguredV2Interaction`, so `Given` remains invocable — the guarded step
succeeds on a concrete interaction whose description was already set and
appends the provider state — refuting the claim that `Given` can never be
invoked after `UponReceiving`. -/
theorem given_succeeds_after_uponReceiving :
    ((guardedStep noJSONObject sampleProvider .unconfigured
        ((emptyInteraction .v2).UponReceiving "A request to do a foo")
        (.given "User foo exists")).toOption.map
        (fun out => (out.1, out.2.states)))
      = some (.unconfigured, [⟨"User foo exists", []⟩]) := rfl

/-- C5 amended: `Given` and `UponReceiving` both operate on — and return —
the unconfigured handle, so they may be interleaved in any order before
`WithRequest`: invoking `Given` after `UponReceiving` is valid, appends its
provider state, and leaves the description in place; the one-directional
narrowing of handle types begins at `WithRequest`. -/
theorem given_still_invocable_after_uponReceiving
    (i : UnconfiguredV2Interaction) (d s : String) :
    ((i.UponReceiving d).Given s).interaction.states
        = i.interaction.states ++ [⟨s, []⟩]
    ∧ ((i.UponReceiving d).Given s).interaction.description = d
    ∧ receiverState .given = resultState .uponReceiving := by
  refine ⟨?_, rfl, rfl⟩
  simp [UnconfiguredV2Interaction.Given, UnconfiguredV2Interaction.UponReceiving,
    Interaction.Given, Interaction.UponReceiving]

/-- Helper: a response-builder method call that succeeds appends exactly its
one primitive event to the interaction's trace. -/
theorem applyResponseOp_event (p : String → Bool)
    (b b2 : V2InteractionWithResponseBuilder) (op : V2ResponseOp)
    (h : applyResponseOp p b op = .ok b2) :
    b2.interaction.events = b.interaction.events ++ [responseOpEvent op] := by
  cases op with
  | header k vs =>
    cases h
    simp [V2InteractionWithResponseBuilder.Header, Interaction.WithResponseHeaders,
      responseOpEvent]
  | headers hs =>
    cases h
    simp [V2InteractionWithResponseBuilder.Headers, Interaction.WithResponseHeaders,
      responseOpEvent]
  | jsonBody body =>
    simp only [applyResponseOp, V2InteractionWithResponseBuilder.JSONBody] at h
    cases hval : validateMatchers b.interaction.specificationVersion body with
    | some e => simp [hval] at h
    | none =>
      simp [hval] at h
      subst h
      simp [Interaction.WithJSONResponseBody, responseOpEvent]
  | binaryBody body =>
    cases h
    simp [V2InteractionWithResponseBuilder.BinaryBody, Interaction.WithBinaryResponseBody,
      responseOpEvent]
  | multipartBody ct f m =>
    cases h
    simp [V2InteractionWithResponseBuilder.MultipartBody,
      Interaction.WithResponseMultipartFile, responseOpEvent]
  | body ct raw =>
    cases h
    simp [V2InteractionWithResponseBuilder.Body, Interaction.WithResponseBody,
      responseOpEvent]
  | bodyMatch v =>
    simp only [applyResponseOp, V2InteractionWithResponseBuilder.BodyMatch, MatchV2] at h
    by_cases hv : jsonRepresentable v
    · simp [hv] at h
      subst h
      simp [Interaction.WithJSONResponseBody, responseOpEvent]
    · simp [hv] at h

/-- Helper: a response-builder callback that succeeds appends the events of
its calls, in call order. -/
theorem runResponseOps_events (p : String → Bool) (ops : List V2ResponseOp)
    (b b2 : V2InteractionWithResponseBuilder)
    (h : runResponseOps p ops b = .ok b2) :
    b2.interaction.events = b.interaction.events ++ ops.map responseOpEvent := by
  induction ops generalizing b with
  | nil =>
    cases h
    simp
  | cons op rest ih =>
    unfold runResponseOps at h
    cases happ : applyResponseOp p b op with
    | error e => rw [happ] at h; cases h
    | ok b3 =>
      rw [happ] at h
      rw [ih b3 h, applyResponseOp_event p b b3 op happ]
      simp

/-- Helper: a sequence of response-builder callbacks that succeeds appends
the events of all their calls, builder by builder, in the order supplied. -/
theorem runResponseBuilders_events (p : String → Bool)
    (progs : List V2ResponseBuilderProg) (b b2 : V2InteractionWithResponseBuilder)
    (h : runResponseBuilders p progs b = .ok b2) :
    b2.interaction.events = b.interaction.events ++ progs.flatten.map responseOpEvent := by
  induction progs generalizing b with
  | nil =>
    cases h
    simp
  | cons prog rest ih =>
    unfold runResponseBuilders at h
    cases hrun : runResponseOps p prog b with
    | error e => rw [hrun] at h; cases h
    | ok b3 =>
      rw [hrun] at h
      rw [ih b3 h, runResponseOps_events p prog b b3 hrun]
      simp

/-- C8: for every status code and every finite sequence of response-builder
callbacks passed to `WillRespondWith` that completes successfully, the trace
of primitive mutations shows the status set on the interaction before any
builder runs, and the builders' calls then applied in the order supplied,
all accumulating on the same single underlying interaction — the
response-status-before-response-body ordering of the spec. -/
theorem willRespondWith_sets_status_then_builders
    (p : String → Bool) (i : V2InteractionWithRequest) (status : Int)
    (builders : List V2ResponseBuilderProg) (r : V2InteractionWithResponse)
    (h : i.WillRespondWith p status builders = .ok r) :
    r.interaction.events
      = i.interaction.events
          ++ Event.withStatus status :: builders.flatten.map responseOpEvent := by
  unfold V2InteractionWithRequest.WillRespondWith at h
  cases hrun : runResponseBuilders p builders
      ⟨i.interaction.WithStatus status, i.provider⟩ with
  | error e => rw [hrun] at h; cases h
  | ok b =>
    rw [hrun] at h
    cases h
    have := runResponseBuilders_events p builders
      ⟨i.interaction.WithStatus status, i.provider⟩ b hrun
    rw [this]
    simp [Interaction.WithStatus]

/-- Witness for C8: a concrete `WillRespondWith 200` with one builder that
sets the content-type header, mirroring the example test. -/
theorem willRespondWith_sets_status_then_builders_witness :
    (V2InteractionWithResponse.mk
        (((emptyInteraction .v2).WithStatus 200).WithResponseHeaders
          [("Content-Type", [.string "application/json"])])
        sampleProvider).interaction.events
      = (V2InteractionWithRequest.mk (emptyInteraction .v2)
            sampleProvider).interaction.events
          ++ Event.withStatus 200 ::
            ([[V2ResponseOp.header "Content-Type" [.string "application/json"]]].flatten.map
              responseOpEvent) :=
  willRespondWith_sets_status_then_builders noJSONObject
    ⟨emptyInteraction .v2, sampleProvider⟩ 200
    [[.header "Content-Type" [.string "application/json"]]]
    ⟨((emptyInteraction .v2).WithStatus 200).WithResponseHeaders
        [("Content-Type", [.string "application/json"])], sampleProvider⟩
    rfl

/-- C7: `ExecuteTest` invoked on a completed interaction handle is exactly
`ExecuteTest` invoked on its owning mock provider with the same exercise
function — both drive the full mock-provider lifecycle end to end and return
the same single aggregated error — and the result is `nil` precisely on full
success: a non-empty aggregate, non-empty consumer and provider names, a
persistence write that succeeds, a transport that starts, an exercise
function that returns no error, and a verification that matches. A
persistence failure after an otherwise fully successful run is reported
distinctly, as `persistenceFailure`, so the caller can tell "contract
invalid" from "contract valid but not saved". -/
theorem executeTest_delegates_to_provider
    (m : V2InteractionWithResponse) (fn : MockServerConfig → Option String) :
    m.ExecuteTest fn = m.provider.httpMockProvider.ExecuteTest fn
    ∧ (m.ExecuteTest fn = none ↔
        m.provider.httpMockProvider.interactions ≠ []
        ∧ m.provider.httpMockProvider.config.consumer ≠ ""
        ∧ m.provider.httpMockProvider.config.provider ≠ ""
        ∧ m.provider.httpMockProvider.persistence.writeResult = none
        ∧ ∃ cfg, m.provider.httpMockProvider.transport.startResult = .ok cfg
            ∧ fn cfg = none
            ∧ m.provider.httpMockProvider.transport.verifyResult.matched = true)
    ∧ (∀ (cfg : MockServerConfig) (msg : String),
        m.provider.httpMockProvider.interactions ≠ [] →
        m.provider.httpMockProvider.config.consumer ≠ "" →
        m.provider.httpMockProvider.config.provider ≠ "" →
        m.provider.httpMockProvider.transport.startResult = .ok cfg →
        fn cfg = none →
        m.provider.httpMockProvider.transport.verifyResult.matched = true →
        m.provider.httpMockProvider.persistence.writeResult = some msg →
        m.ExecuteTest fn = some (.persistenceFailure msg)) := by
  refine ⟨rfl, ?_, ?_⟩
  · show m.provider.httpMockProvider.ExecuteTest fn = none ↔ _
    unfold HttpMockProvider.ExecuteTest
    rcases hv : m.provider.httpMockProvider.transport.verifyResult with ⟨matched, ms⟩
    by_cases hemp : m.provider.httpMockProvider.interactions.isEmpty
    · simp [hemp, List.isEmpty_iff.mp hemp]
    · have hne : m.provider.httpMockProvider.interactions ≠ [] := by
        intro hnil
        rw [hnil] at hemp
        simp at hemp
      by_cases hnames : m.provider.httpMockProvider.config.consumer = ""
          ∨ m.provider.httpMockProvider.config.provider = ""
      · rw [if_neg hemp, if_pos hnames]
        constructor
        · intro h; simp at h
        · rintro ⟨-, hc, hp, -⟩
          rcases hnames with h | h
          · exact (hc h).elim
          · exact (hp h).elim
      · have hcp := hnames
        push_neg at hcp
        obtain ⟨hc, hp⟩ := hcp
        rw [if_neg hemp, if_neg hnames]
        cases hstart : m.provider.httpMockProvider.transport.startResult with
        | error e =>
          constructor
          · intro h; simp at h
          · rintro ⟨-, -, -, -, cfg, hcfg, -⟩
            cases hcfg
        | ok cfg =>
          cases hfn : fn cfg with
          | none =>
            cases hw : m.provider.httpMockProvider.persistence.writeResult with
            | none =>
              cases matched with
              | true => simp [hstart, hv, hfn, hne, hc, hp, hw]
              | false => simp [hstart, hv, hfn, hne, hc, hp, hw]
            | some msg =>
              cases matched with
              | true => simp [hstart, hv, hfn, hne, hc, hp, hw]
              | false => simp [hstart, hv, hfn, hne, hc, hp, hw]
          | some e =>
            simp only [hstart, hv, hfn]
            cases matched <;> simp [hne, hc, hp, hfn]
  · intro cfg msg hne hc hp hstart hfn hm hw
    show m.provider.httpMockProvider.ExecuteTest fn = some (.persistenceFailure msg)
    unfold HttpMockProvider.ExecuteTest
    rcases hv : m.provider.httpMockProvider.transport.verifyResult with ⟨matched, ms⟩
    rw [hv] at hm
    simp only at hm
    subst hm
    have hemp : ¬ m.provider.httpMockProvider.interactions.isEmpty = true := by
      simp [List.isEmpty_iff, hne]
    rw [if_neg hemp,
      if_neg (by rintro (h | h); exacts [hc h, hp h])]
    rw [hstart]
    simp [hfn, hv, hw]

/-- Witness for C7: the concrete completed handle over the sample provider
with an exercise function that reports no error, and over the
failing-persistence provider where the otherwise successful run reports the
persistence failure distinctly. -/
theorem executeTest_delegates_to_provider_witness :
    (V2InteractionWithResponse.mk (emptyInteraction .v2) sampleProvider).ExecuteTest
        (fun _ => none)
      = sampleProvider.httpMockProvider.ExecuteTest (fun _ => none)
    ∧ (V2InteractionWithResponse.mk (emptyInteraction .v2) sampleProvider).ExecuteTest
        (fun _ => none) = none
    ∧ (V2InteractionWithResponse.mk (emptyInteraction .v2)
          failingPersistenceProvider).ExecuteTest (fun _ => none)
        = some (.persistenceFailure "contract file not written") :=
  ⟨(executeTest_delegates_to_provider ⟨emptyInteraction .v2, sampleProvider⟩
      (fun _ => none)).1,
   (executeTest_delegates_to_provider ⟨emptyInteraction .v2, sampleProvider⟩
      (fun _ => none)).2.1.mpr
     ⟨by simp [sampleProvider], by simp [sampleProvider], by simp [sampleProvider],
      rfl, ⟨"127.0.0.1", 8080, true⟩, rfl, rfl, rfl⟩,
   (executeTest_delegates_to_provider ⟨emptyInteraction .v2, failingPersistenceProvider⟩
      (fun _ => none)).2.2 ⟨"127.0.0.1", 8080, true⟩ "contract file not written"
     (by simp [failingPersistenceProvider]) (by simp [failingPersistenceProvider])
     (by simp [failingPersistenceProvider]) rfl rfl rfl rfl⟩

end PactGo
